import Mathlib

/-!
# Formal model of `sistema_qualidade_industrial.py`

A shallow embedding of the industrial quality-control and packing system:
parts (`Peca`) are registered with weight/color/length attributes, validated
by `ControleQualidade`, and approved parts are packed into capacity-10 boxes
(`Caixa`) managed by the production ledger (`SistemaProducao`).

Modelling conventions:
* Python floats (weights, lengths, percentages) are modelled as rationals `ℚ`.
  All numeric inputs exercised by the program are decimal literals, for which
  rational arithmetic agrees with the source semantics.
* Python object references are modelled by identifiers: a `Peca` is referred to
  by its `id` field (live parts always carry pairwise distinct ids, so id-based
  lookup coincides with Python's object identity), and a `Caixa` carries an
  extra allocation tag `uid` standing for its object identity, allocated from
  the `next_uid` counter of the ledger (the visible `numero` field of a box is
  *not* an identity: the source can assign the same `numero` to two live boxes).
* Mutation is modelled by explicit state passing: each method of the source
  becomes a function from the receiver's value to its updated value.
-/

/-- Python's `str.lower()`.  Implemented over the character list so that it
reduces in the kernel (`String.toLower` is defined by well-founded recursion
over byte positions and does not). -/
def strToLower (s : String) : String := ⟨s.data.map Char.toLower⟩

/-- Python's `str.strip()`: drop leading and trailing whitespace.  Implemented
over the character list so that it reduces in the kernel. -/
def strTrim (s : String) : String :=
  ⟨((s.data.dropWhile Char.isWhitespace).reverse.dropWhile Char.isWhitespace).reverse⟩

/-- `Peca.__init__`: a production part.  The constructor lowercases the color
(`self.cor = cor.lower()`), starts unapproved with no rejection reasons, and
with no box reference (`self.caixa = None`; when set, it holds the `numero`
of the containing box). -/
structure Peca where
  id : Nat
  peso : ℚ
  cor : String
  comprimento : ℚ
  aprovada : Bool
  motivos_reprovacao : List String
  caixa : Option Nat
deriving Repr, DecidableEq

/-- The `Peca(id_peca, peso, cor, comprimento)` constructor. -/
def Peca.init (id_peca : Nat) (peso : ℚ) (cor : String) (comprimento : ℚ) : Peca :=
  { id := id_peca
    peso := peso
    cor := strToLower cor
    comprimento := comprimento
    aprovada := false
    motivos_reprovacao := []
    caixa := none }

/-- `ControleQualidade.PESO_MIN`. -/
def ControleQualidade.PESO_MIN : ℚ := 95

/-- `ControleQualidade.PESO_MAX`. -/
def ControleQualidade.PESO_MAX : ℚ := 105

/-- `ControleQualidade.CORES_VALIDAS`. -/
def ControleQualidade.CORES_VALIDAS : List String := ["azul", "verde"]

/-- `ControleQualidade.COMPRIMENTO_MIN`. -/
def ControleQualidade.COMPRIMENTO_MIN : ℚ := 10

/-- `ControleQualidade.COMPRIMENTO_MAX`. -/
def ControleQualidade.COMPRIMENTO_MAX : ℚ := 20

/-- The rejection-reason list built inside `ControleQualidade.inspecionar_peca`:
one entry per violated rule, in source order weight, color, length.
The interpolated f-string messages of the source are rendered with `toString`;
Python wraps some interpolated values in extra formatting, which no claim
depends on. -/
def ControleQualidade.motivosDe (peca : Peca) : List String :=
  (if peca.peso < PESO_MIN ∨ peca.peso > PESO_MAX then
    ["Peso fora do padrão (" ++ toString peca.peso ++ "g - esperado: " ++
      toString PESO_MIN ++ "g a " ++ toString PESO_MAX ++ "g)"]
  else []) ++
  (if peca.cor ∉ CORES_VALIDAS then
    ["Cor inválida (" ++ peca.cor ++ " - esperado: " ++
      String.intercalate " ou " CORES_VALIDAS ++ ")"]
  else []) ++
  (if peca.comprimento < COMPRIMENTO_MIN ∨ peca.comprimento > COMPRIMENTO_MAX then
    ["Comprimento fora do padrão (" ++ toString peca.comprimento ++ "cm - esperado: " ++
      toString COMPRIMENTO_MIN ++ "cm a " ++ toString COMPRIMENTO_MAX ++ "cm)"]
  else [])

/-- `ControleQualidade.inspecionar_peca`: evaluates the part, mutating its
`aprovada` flag (and `motivos_reprovacao` on failure) and returning the
verdict.  The updated part is returned alongside the boolean result. -/
def ControleQualidade.inspecionar_peca (peca : Peca) : Peca × Bool :=
  let motivos := motivosDe peca
  if motivos.length = 0 then
    ({ peca with aprovada := true }, true)
  else
    ({ peca with aprovada := false, motivos_reprovacao := motivos }, false)

/-- `Caixa.CAPACIDADE_MAXIMA`. -/
def Caixa.CAPACIDADE_MAXIMA : Nat := 10

/-- `Caixa`: a storage box.  `uid` models the Python object's identity (see the
file header); `numero` is the box number assigned at creation; `pecas` holds
the ids of the contained parts in insertion order. -/
structure Caixa where
  uid : Nat
  numero : Nat
  pecas : List Nat
  fechada : Bool
deriving Repr, DecidableEq

/-- `Caixa.esta_cheia`. -/
def Caixa.esta_cheia (c : Caixa) : Bool := CAPACIDADE_MAXIMA ≤ c.pecas.length

/-- `Caixa.esta_vazia`. -/
def Caixa.esta_vazia (c : Caixa) : Bool := c.pecas.length = 0

/-- `Caixa.adicionar_peca`: returns the updated box and the success flag.
On success the caller must also set the part's `caixa` field to the box's
`numero` (the source does this by mutating the shared part object). -/
def Caixa.adicionar_peca (c : Caixa) (pid : Nat) : Caixa × Bool :=
  if c.fechada then (c, false)
  else if c.pecas.length < CAPACIDADE_MAXIMA then
    let c1 := { c with pecas := c.pecas ++ [pid] }
    if c1.pecas.length = CAPACIDADE_MAXIMA then
      ({ c1 with fechada := true }, true)
    else (c1, true)
  else (c, false)

/-- `Caixa.remover_peca`: removes the first occurrence of the part from the
box.  In the source, `if self.fechada: self.fechada = False` nets to setting
the flag to `false` unconditionally on success.  On success the caller must
also clear the removed part's `caixa` field. -/
def Caixa.remover_peca (c : Caixa) (pid : Nat) : Caixa × Bool :=
  if pid ∈ c.pecas then
    ({ c with pecas := c.pecas.erase pid, fechada := false }, true)
  else (c, false)

/-- `SistemaProducao.__init__` state.  The derived lists `pecas_aprovadas` and
`pecas_reprovadas` and the box contents store part ids (Python stores
references to the part objects owned by `todas_pecas`).  `caixa_atual` stores
the `uid` of the current box, or `none`; `next_uid` is the allocation counter
for box identities (a modelling artifact with no Python counterpart). -/
structure SistemaProducao where
  pecas_aprovadas : List Nat
  pecas_reprovadas : List Nat
  todas_pecas : List Peca
  caixas : List Caixa
  caixa_atual : Option Nat
  proximo_id : Nat
  next_uid : Nat
deriving Repr, DecidableEq

/-- The freshly constructed system. -/
def SistemaProducao.empty : SistemaProducao :=
  { pecas_aprovadas := []
    pecas_reprovadas := []
    todas_pecas := []
    caixas := []
    caixa_atual := none
    proximo_id := 1
    next_uid := 0 }

/-- The box object referenced by `self.caixa_atual`, resolved through the
ledger's box list.  `none` both when `caixa_atual is None` and when the uid is
dangling (the latter cannot arise from the operations of this file). -/
def SistemaProducao.caixaAtualObj (s : SistemaProducao) : Option Caixa :=
  match s.caixa_atual with
  | none => none
  | some uid => s.caixas.find? (fun c => c.uid == uid)

/-- The final statement of `_armazenar_peca`:
`self.caixa_atual.adicionar_peca(peca)`.  The box referenced by
`caixa_atual` is updated in place in the box list, and on success the part
object receives the box reference. -/
def SistemaProducao.adicionarNaAtual (s : SistemaProducao) (peca : Peca) :
    SistemaProducao × Peca :=
  match s.caixaAtualObj with
  | none => (s, peca)
  | some c =>
    let r := c.adicionar_peca peca.id
    let s2 := { s with caixas := s.caixas.map (fun b => if b.uid == c.uid then r.1 else b) }
    (s2, if r.2 then { peca with caixa := some r.1.numero } else peca)

/-- `SistemaProducao._armazenar_peca`: packs an approved part.  If there is no
current box or the current box is full, a fresh box numbered
`len(self.caixas) + 1` is appended and made current; then the add into the
current box runs.  Returns the updated system and the part (whose `caixa`
field is set when the add succeeded). -/
def SistemaProducao.armazenar_peca (s : SistemaProducao) (peca : Peca) :
    SistemaProducao × Peca :=
  let s1 :=
    if (s.caixaAtualObj.map Caixa.esta_cheia).getD true then
      { s with caixas := s.caixas ++ [(⟨s.next_uid, s.caixas.length + 1, [], false⟩ : Caixa)]
               caixa_atual := some s.next_uid
               next_uid := s.next_uid + 1 }
    else s
  s1.adicionarNaAtual peca

/-- `SistemaProducao.cadastrar_peca`: creates the part with id `proximo_id`,
increments the counter, inspects the part, and routes it to the approved list
and a box, or to the rejected list.  Returns
`(system, peca, aprovada, motivos)` mirroring the source's
`(peca, True, None)` / `(peca, False, peca.motivos_reprovacao)`.
The source appends the part object to `todas_pecas` before inspecting and
storing it and then mutates the shared object; with value semantics we append
the finished part value, which yields the same final state. -/
def SistemaProducao.cadastrar_peca (s : SistemaProducao) (peso : ℚ) (cor : String)
    (comprimento : ℚ) : SistemaProducao × Peca × Bool × Option (List String) :=
  let peca := Peca.init s.proximo_id peso cor comprimento
  let s1 := { s with proximo_id := s.proximo_id + 1 }
  let r := ControleQualidade.inspecionar_peca peca
  if r.2 then
    let s2 := { s1 with pecas_aprovadas := s1.pecas_aprovadas ++ [r.1.id] }
    let ap := s2.armazenar_peca r.1
    ({ ap.1 with todas_pecas := ap.1.todas_pecas ++ [ap.2] }, ap.2, true, none)
  else
    ({ s1 with pecas_reprovadas := s1.pecas_reprovadas ++ [r.1.id]
               todas_pecas := s1.todas_pecas ++ [r.1] }, r.1, false,
      some r.1.motivos_reprovacao)

/-- The box-scanning loop of `SistemaProducao.remover_peca`: tries
`caixa.remover_peca` on each box in order, stops at the first success, deletes
the box from the sequence when it became empty.  Returns the new box list and,
when a box was hit, that (updated) box together with the flag telling whether
it was deleted. -/
def removerDeCaixas (pid : Nat) : List Caixa → List Caixa × Option (Caixa × Bool)
  | [] => ([], none)
  | c :: rest =>
    let r := c.remover_peca pid
    if r.2 then
      if r.1.esta_vazia then (rest, some (r.1, true))
      else (r.1 :: rest, some (r.1, false))
    else
      let rr := removerDeCaixas pid rest
      (c :: rr.1, rr.2)

/-- `SistemaProducao.remover_peca`: looks up the part by id in `todas_pecas`;
on a miss returns the failure message and leaves the state untouched;
otherwise removes the part from the master list, from its derived list, and
(when approved) from its box, deleting the box if it became empty and
re-targeting `caixa_atual` at the last remaining box (or `none`). -/
def SistemaProducao.remover_peca (s : SistemaProducao) (id_peca : Nat) :
    SistemaProducao × Bool × String :=
  match s.todas_pecas.find? (fun p => p.id == id_peca) with
  | none => (s, false, "Peça não encontrada")
  | some peca =>
    let s1 := { s with todas_pecas := s.todas_pecas.eraseP (fun p => p.id == id_peca) }
    if peca.aprovada then
      let s2 := { s1 with pecas_aprovadas := s1.pecas_aprovadas.erase id_peca }
      let rc := removerDeCaixas id_peca s2.caixas
      let s3 := { s2 with caixas := rc.1 }
      let s4 :=
        match rc.2 with
        | some (c, true) =>
          if s3.caixa_atual = some c.uid then
            { s3 with caixa_atual := (rc.1.getLast?).map Caixa.uid }
          else s3
        | _ => s3
      (s4, true, "Peça removida com sucesso")
    else
      ({ s1 with pecas_reprovadas := s1.pecas_reprovadas.erase id_peca }, true,
        "Peça removida com sucesso")

/-- `SistemaProducao.buscar_peca`. -/
def SistemaProducao.buscar_peca (s : SistemaProducao) (id_peca : Nat) : Option Peca :=
  s.todas_pecas.find? (fun p => p.id == id_peca)

/-- `SistemaProducao.listar_caixas_fechadas`. -/
def SistemaProducao.listar_caixas_fechadas (s : SistemaProducao) : List Caixa :=
  s.caixas.filter (fun c => c.fechada)

/-- Python's `round(x, 1)` on the exact rational value: round to one decimal
place.  Python rounds ties to even on floats; `round` here rounds ties away
from the lower half — no claim exercises a tie, and no input of the program
produces one at this call site. -/
def round1 (x : ℚ) : ℚ := ((round (x * 10) : ℤ) : ℚ) / 10

/-- `SistemaProducao._calcular_percentual`: percentage with explicit handling
of a zero total. -/
def SistemaProducao.calcular_percentual (parte total : Nat) : ℚ :=
  if total = 0 then 0
  else round1 ((parte : ℚ) / (total : ℚ) * 100)

/-! ## Batch importer (`SistemaProducao.processar_lote_csv`)

The source reads the batch from a CSV file through `csv.DictReader`.  File
access is modelled by an `Option CSVFile` argument: `none` stands for a path
that fails the `os.path.exists` check, `some f` for a readable file already
split into its header `fieldnames` and data `rows`. -/

/-- A parsed CSV source: the header row and the data rows. -/
structure CSVFile where
  fieldnames : List String
  rows : List (List String)
deriving Repr, DecidableEq

/-- `linha[key]` on a `csv.DictReader` row: `none` models a `KeyError` (the
key is not among the fieldnames); `some none` models the value `None` (the
row is shorter than the header, `restval`); `some (some v)` is a present
value.  When a fieldname repeats, the last occurrence wins, as in the `dict`
the reader builds. -/
def dictGet (fieldnames : List String) (row : List String) (key : String) :
    Option (Option String) :=
  match (fieldnames.enum.filter (fun p => p.2 = key)).getLast? with
  | none => none
  | some p => some (row.get? p.1)

/-- Numeric value of a digit string. -/
def digitsToNat (ds : List Char) : Nat :=
  ds.foldl (fun n c => 10 * n + (c.toNat - Char.toNat '0')) 0

/-- Split a character list at the first dot, if any. -/
def splitAtDot : List Char → List Char × Option (List Char)
  | [] => ([], none)
  | c :: rest =>
    if c = '.' then ([], some rest)
    else
      let r := splitAtDot rest
      (c :: r.1, r.2)

/-- Python's `float(s)` on the strings this program feeds it: an optional
sign, digits, and an optional fractional part ("100", "-3.5", "15.", ".5").
Returns `none` for a `ValueError`.  Python's `float` also accepts exponents
and infinities; those spellings never occur in the claims and are rejected
here. -/
def parseFloat (s : String) : Option ℚ :=
  let cs := s.data
  let signBody : Bool × List Char :=
    match cs with
    | '-' :: rest => (true, rest)
    | '+' :: rest => (false, rest)
    | _ => (false, cs)
  let body := signBody.2
  let sign : Int := if signBody.1 then -1 else 1
  match splitAtDot body with
  | (ip, none) =>
    if ip ≠ [] ∧ ip.all Char.isDigit then some (mkRat (sign * digitsToNat ip) 1) else none
  | (ip, some fp) =>
    if (ip ≠ [] ∨ fp ≠ []) ∧ ip.all Char.isDigit ∧ fp.all Char.isDigit then
      some (mkRat (sign * (digitsToNat ip * 10 ^ fp.length + digitsToNat fp)) (10 ^ fp.length))
    else none

/-- Accumulator of the row loop in `processar_lote_csv`. -/
structure LoteAcc where
  sistema : SistemaProducao
  total : Nat
  aprovadas : Nat
  reprovadas : Nat
  erros : List String
deriving Repr, DecidableEq

/-- Row-tagged error for an unparsable value (`except ValueError`).  The
source interpolates `str(e)`; the quoting Python adds around the offending
value is dropped. -/
def msgDadosInvalidos (linha_num : Nat) (valor : String) : String :=
  "Linha " ++ toString linha_num ++ ": Dados inválidos - could not convert string to float: "
    ++ valor

/-- Row-tagged error for a missing column (`except KeyError`).  The quoting
Python adds around the key is dropped. -/
def msgColunaAusente (linha_num : Nat) (campo : String) : String :=
  "Linha " ++ toString linha_num ++ ": Coluna ausente - " ++ campo

/-- Row-tagged error for any other exception (`except Exception`), e.g. the
`AttributeError` raised by `None.strip()` when the row is shorter than the
header. -/
def msgErroInesperado (linha_num : Nat) : String :=
  "Linha " ++ toString linha_num ++ ": Erro inesperado"

/-- The body of the row loop of `processar_lote_csv`: extract and parse
`peso`, `cor`, `comprimento` in source order (the first failure wins, exactly
as the first exception raised in the `try` block does), then register the
part and tally. -/
def processarLinha (fn : List String) (acc : LoteAcc) (linha_num : Nat)
    (linha : List String) : LoteAcc :=
  match dictGet fn linha "peso" with
  | none => { acc with erros := acc.erros ++ [msgColunaAusente linha_num "peso"] }
  | some none => { acc with erros := acc.erros ++ [msgErroInesperado linha_num] }
  | some (some pesoStr) =>
    match parseFloat (strTrim pesoStr) with
    | none => { acc with erros := acc.erros ++ [msgDadosInvalidos linha_num (strTrim pesoStr)] }
    | some peso =>
      match dictGet fn linha "cor" with
      | none => { acc with erros := acc.erros ++ [msgColunaAusente linha_num "cor"] }
      | some none => { acc with erros := acc.erros ++ [msgErroInesperado linha_num] }
      | some (some corStr) =>
        match dictGet fn linha "comprimento" with
        | none => { acc with erros := acc.erros ++ [msgColunaAusente linha_num "comprimento"] }
        | some none => { acc with erros := acc.erros ++ [msgErroInesperado linha_num] }
        | some (some compStr) =>
          match parseFloat (strTrim compStr) with
          | none =>
            { acc with erros := acc.erros ++ [msgDadosInvalidos linha_num (strTrim compStr)] }
          | some comprimento =>
            let r := acc.sistema.cadastrar_peca peso (strTrim corStr) comprimento
            { acc with
              sistema := r.1
              total := acc.total + 1
              aprovadas := if r.2.2.1 then acc.aprovadas + 1 else acc.aprovadas
              reprovadas := if r.2.2.1 then acc.reprovadas else acc.reprovadas + 1 }

/-- The row loop: `for linha_num, linha in enumerate(leitor, start=2)`. -/
def processarLinhas (fn : List String) (acc : LoteAcc) (linha_num : Nat) :
    List (List String) → LoteAcc
  | [] => acc
  | linha :: rest => processarLinhas fn (processarLinha fn acc linha_num linha) (linha_num + 1) rest

/-- The required column names `{'peso', 'cor', 'comprimento'}`. -/
def colunasNecessarias : List String := ["peso", "cor", "comprimento"]

/-- `SistemaProducao.processar_lote_csv`: returns
`(sistema, total_processadas, aprovadas, reprovadas, erros)`.  The header
check lowercases and strips the fieldnames before testing that the required
columns are a subset; row lookups, however, use the exact keys `'peso'`,
`'cor'`, `'comprimento'` against the *original* fieldnames.  (Python renders
the required-columns message by iterating a `set`, whose order is
unspecified; a fixed order is used here.) -/
def SistemaProducao.processar_lote_csv (s : SistemaProducao) (arquivo : Option CSVFile) :
    SistemaProducao × Nat × Nat × Nat × List String :=
  match arquivo with
  | none => (s, 0, 0, 0, ["Arquivo não encontrado"])
  | some f =>
    let colunas_arquivo := f.fieldnames.map (fun c => strTrim (strToLower c))
    if colunasNecessarias.all (fun c => colunas_arquivo.contains c) then
      let acc := processarLinhas f.fieldnames ⟨s, 0, 0, 0, []⟩ 2 f.rows
      (acc.sistema, acc.total, acc.aprovadas, acc.reprovadas, acc.erros)
    else
      (s, 0, 0, 0,
        ["Arquivo CSV deve conter as colunas: " ++ String.intercalate ", " colunasNecessarias])

/-! ## Operation sequences

Claims over "every interleaved sequence of register and remove-by-id
operations" are phrased over lists of `Op` run against the engine. -/

/-- An engine operation issued by a caller. -/
inductive Op where
  | cadastrar (peso : ℚ) (cor : String) (comprimento : ℚ)
  | remover (id_peca : Nat)
deriving Repr, DecidableEq

/-- Apply one operation, discarding the returned value. -/
def applyOp (s : SistemaProducao) : Op → SistemaProducao
  | .cadastrar peso cor comprimento => (s.cadastrar_peca peso cor comprimento).1
  | .remover id_peca => (s.remover_peca id_peca).1

/-- Run a sequence of operations. -/
def runOps (s : SistemaProducao) (ops : List Op) : SistemaProducao :=
  ops.foldl applyOp s

/-- Number of registrations in a sequence. -/
def countCad (ops : List Op) : Nat :=
  ops.countP (fun o => match o with | .cadastrar _ _ _ => true | _ => false)

/-- A registration request: weight, color, length. -/
abbrev Entrada := ℚ × String × ℚ

/-- Register one part, discarding the returned value. -/
def registrar (s : SistemaProducao) (e : Entrada) : SistemaProducao :=
  (s.cadastrar_peca e.1 e.2.1 e.2.2).1

/-- Register a batch of parts in order. -/
def registerAll (s : SistemaProducao) (es : List Entrada) : SistemaProducao :=
  es.foldl registrar s

/-- The request passes inspection (the verdict `inspecionar_peca` computes,
which does not depend on the id the part will receive). -/
def passa (e : Entrada) : Bool :=
  (ControleQualidade.inspecionar_peca (Peca.init 0 e.1 e.2.1 e.2.2)).2

/-! ## Helper lemmas about the evaluator -/

lemma inspecionar_snd_iff (p : Peca) :
    (ControleQualidade.inspecionar_peca p).2 = true ↔
      ControleQualidade.motivosDe p = [] := by
  unfold ControleQualidade.inspecionar_peca
  by_cases h : (ControleQualidade.motivosDe p).length = 0
  · simp only [if_pos h]
    simpa using List.length_eq_zero.mp h
  · simp only [if_neg h]
    constructor
    · intro hh; cases hh
    · intro hh; exact absurd (by simp [hh]) h

lemma inspecionar_fst_motivos (p : Peca) (hp : p.motivos_reprovacao = []) :
    (ControleQualidade.inspecionar_peca p).1.motivos_reprovacao =
      ControleQualidade.motivosDe p := by
  unfold ControleQualidade.inspecionar_peca
  by_cases h : (ControleQualidade.motivosDe p).length = 0
  · simp only [if_pos h]
    simp [hp, (List.length_eq_zero.mp h).symm]
  · simp only [if_neg h]

example : ControleQualidade.inspecionar_peca (Peca.init 1 100 "Azul" 15) =
    ({ Peca.init 1 100 "Azul" 15 with aprovada := true }, true) := by decide

example : (ControleQualidade.inspecionar_peca (Peca.init 1 200 "roxo" 15)).2 = false := by
  decide

example : parseFloat "abc" = none := by decide

example : parseFloat "100" = some 100 := by decide

example : parseFloat "-3.5" = some (mkRat (-7) 2) := by decide

example : (SistemaProducao.empty.processar_lote_csv
    (some ⟨["peso", "cor", "comprimento"], [["100", "azul", "15"]]⟩)).2.1 = 1 := by decide

example : (SistemaProducao.empty.processar_lote_csv
    (some ⟨["Peso", "Cor", "Comprimento"], [["100", "azul", "15"]]⟩)).2.2.2.2 =
    ["Linha 2: Coluna ausente - peso"] := by decide

/-! ## Claim theorems -/

/-- C1: the evaluator `ControleQualidade.inspecionar_peca`, applied to a part
built from weight `w`, color `c`, length `l`, passes iff `w ∈ [95, 105]`, the
case-normalized color is in the allowed set `{azul, verde}` and
`l ∈ [10, 20]`; the reason list decomposes into a weight part, then a color
part, then a length part, each holding exactly one reason exactly when the
corresponding rule is violated; and the verdict is `true` iff the reason list
is empty. -/
theorem claim_C1 (w l : ℚ) (c : String) (i : Nat) :
    ((ControleQualidade.inspecionar_peca (Peca.init i w c l)).2 = true ↔
      (ControleQualidade.PESO_MIN ≤ w ∧ w ≤ ControleQualidade.PESO_MAX) ∧
        strToLower c ∈ ControleQualidade.CORES_VALIDAS ∧
        (ControleQualidade.COMPRIMENTO_MIN ≤ l ∧ l ≤ ControleQualidade.COMPRIMENTO_MAX)) ∧
    (∃ mw mc ml,
      (ControleQualidade.inspecionar_peca (Peca.init i w c l)).1.motivos_reprovacao =
          mw ++ mc ++ ml ∧
        mw.length =
          (if w < ControleQualidade.PESO_MIN ∨ w > ControleQualidade.PESO_MAX then 1 else 0) ∧
        mc.length = (if strToLower c ∈ ControleQualidade.CORES_VALIDAS then 0 else 1) ∧
        ml.length =
          (if l < ControleQualidade.COMPRIMENTO_MIN ∨ l > ControleQualidade.COMPRIMENTO_MAX
            then 1 else 0)) ∧
    ((ControleQualidade.inspecionar_peca (Peca.init i w c l)).2 = true ↔
      (ControleQualidade.inspecionar_peca (Peca.init i w c l)).1.motivos_reprovacao = []) := by
  refine ⟨?_, ?_, ?_⟩
  · rw [inspecionar_snd_iff]
    simp only [ControleQualidade.motivosDe, Peca.init, List.append_eq_nil, ite_eq_right_iff,
      List.cons_ne_nil, imp_false, not_or, not_lt, not_not]
    tauto
  · rw [inspecionar_fst_motivos _ rfl]
    refine ⟨_, _, _, rfl, ?_, ?_, ?_⟩
    · by_cases hw : w < ControleQualidade.PESO_MIN ∨ w > ControleQualidade.PESO_MAX <;>
        simp [Peca.init, hw]
    · by_cases hc : strToLower c ∈ ControleQualidade.CORES_VALIDAS <;>
        simp [Peca.init, hc]
    · by_cases hl : l < ControleQualidade.COMPRIMENTO_MIN ∨
          l > ControleQualidade.COMPRIMENTO_MAX <;>
        simp [Peca.init, hl]
  · rw [inspecionar_snd_iff, inspecionar_fst_motivos _ rfl]

/-- C9: the percentage helper `_calcular_percentual` returns `0` on
`(0, 0)`, `30.0` on `(3, 10)`, and `0` for every part value when the total is
zero. -/
theorem claim_C9 :
    SistemaProducao.calcular_percentual 0 0 = 0 ∧
    SistemaProducao.calcular_percentual 3 10 = 30 ∧
    ∀ parte, SistemaProducao.calcular_percentual parte 0 = 0 := by
  refine ⟨by norm_num [SistemaProducao.calcular_percentual], ?_,
    fun parte => by simp [SistemaProducao.calcular_percentual]⟩
  have h : ((3 : ℚ) / 10 * 100) * 10 = ((300 : ℕ) : ℚ) := by norm_num
  simp only [SistemaProducao.calcular_percentual, round1, h, round_natCast]
  norm_num

/-- C6: `remover_peca` on an id carried by no part of the master list returns
the failure result and leaves the whole ledger state (master list, derived
lists, boxes, current box, id counter) exactly unchanged. -/
theorem claim_C6 (s : SistemaProducao) (pid : Nat)
    (h : ∀ p ∈ s.todas_pecas, p.id ≠ pid) :
    s.remover_peca pid = (s, false, "Peça não encontrada") := by
  unfold SistemaProducao.remover_peca
  have hf : s.todas_pecas.find? (fun p => p.id == pid) = none := by
    rw [List.find?_eq_none]
    intro p hp
    simpa using h p hp
  rw [hf]

/-- Concrete instantiation of `claim_C6`: a ledger holding one part with id 1,
asked to remove id 99. -/
theorem claim_C6_witness :
    (∀ p ∈ (SistemaProducao.empty.cadastrar_peca 100 "azul" 15).1.todas_pecas, p.id ≠ 99) ∧
    (SistemaProducao.empty.cadastrar_peca 100 "azul" 15).1.remover_peca 99 =
      ((SistemaProducao.empty.cadastrar_peca 100 "azul" 15).1, false, "Peça não encontrada") :=
  ⟨by decide, claim_C6 _ 99 (by decide)⟩

/-! ## Component-preservation lemmas -/

lemma inspecionar_fst_id (p : Peca) :
    (ControleQualidade.inspecionar_peca p).1.id = p.id := by
  unfold ControleQualidade.inspecionar_peca
  dsimp only
  split <;> rfl

lemma adicionar_uid (c : Caixa) (pid : Nat) :
    ((c.adicionar_peca pid).1).uid = c.uid := by
  unfold Caixa.adicionar_peca
  dsimp only
  repeat' split
  all_goals rfl

lemma adicionar_numero (c : Caixa) (pid : Nat) :
    ((c.adicionar_peca pid).1).numero = c.numero := by
  unfold Caixa.adicionar_peca
  dsimp only
  repeat' split
  all_goals rfl

lemma armazenar_todas (s : SistemaProducao) (p : Peca) :
    ((s.armazenar_peca p).1).todas_pecas = s.todas_pecas := by
  unfold SistemaProducao.armazenar_peca SistemaProducao.adicionarNaAtual
  dsimp only
  repeat' split
  all_goals rfl

lemma armazenar_aprovadas (s : SistemaProducao) (p : Peca) :
    ((s.armazenar_peca p).1).pecas_aprovadas = s.pecas_aprovadas := by
  unfold SistemaProducao.armazenar_peca SistemaProducao.adicionarNaAtual
  dsimp only
  repeat' split
  all_goals rfl

lemma armazenar_reprovadas (s : SistemaProducao) (p : Peca) :
    ((s.armazenar_peca p).1).pecas_reprovadas = s.pecas_reprovadas := by
  unfold SistemaProducao.armazenar_peca SistemaProducao.adicionarNaAtual
  dsimp only
  repeat' split
  all_goals rfl

lemma armazenar_proximo (s : SistemaProducao) (p : Peca) :
    ((s.armazenar_peca p).1).proximo_id = s.proximo_id := by
  unfold SistemaProducao.armazenar_peca SistemaProducao.adicionarNaAtual
  dsimp only
  repeat' split
  all_goals rfl

lemma armazenar_ret_id (s : SistemaProducao) (p : Peca) :
    ((s.armazenar_peca p).2).id = p.id := by
  unfold SistemaProducao.armazenar_peca SistemaProducao.adicionarNaAtual
  dsimp only
  repeat' split
  all_goals rfl

lemma cadastrar_proximo (s : SistemaProducao) (w : ℚ) (c : String) (l : ℚ) :
    ((s.cadastrar_peca w c l).1).proximo_id = s.proximo_id + 1 := by
  unfold SistemaProducao.cadastrar_peca
  dsimp only
  split
  · rw [armazenar_proximo]
  · rfl

lemma cadastrar_ret_id (s : SistemaProducao) (w : ℚ) (c : String) (l : ℚ) :
    ((s.cadastrar_peca w c l).2.1).id = s.proximo_id := by
  unfold SistemaProducao.cadastrar_peca
  dsimp only
  split
  · rw [armazenar_ret_id, inspecionar_fst_id]; rfl
  · rw [inspecionar_fst_id]; rfl

lemma remover_proximo (s : SistemaProducao) (pid : Nat) :
    ((s.remover_peca pid).1).proximo_id = s.proximo_id := by
  unfold SistemaProducao.remover_peca
  dsimp only
  repeat' split
  all_goals rfl

lemma runOps_proximo (ops : List Op) : ∀ s : SistemaProducao,
    (runOps s ops).proximo_id = s.proximo_id + countCad ops := by
  induction ops with
  | nil => intro s; simp [runOps, countCad]
  | cons o rest ih =>
    intro s
    have h1 : runOps s (o :: rest) = runOps (applyOp s o) rest := rfl
    rw [h1, ih]
    cases o with
    | cadastrar w c l =>
      rw [show applyOp s (Op.cadastrar w c l) = (s.cadastrar_peca w c l).1 from rfl,
        cadastrar_proximo]
      simp [countCad, List.countP_cons]
      omega
    | remover i =>
      rw [show applyOp s (Op.remover i) = (s.remover_peca i).1 from rfl, remover_proximo]
      simp [countCad, List.countP_cons]

/-- C5: in every interleaved sequence of register and remove operations run
from the empty ledger, the id counter equals the number of registrations so
far plus one, and the registration performed after any prefix `pre` creates a
part whose id is `countCad pre + 1` — so the k-th registration is assigned id
k, ids are handed out as 1, 2, ... in order, and an id is never reused after
its part is removed. -/
theorem claim_C5 :
    (∀ ops : List Op,
      (runOps SistemaProducao.empty ops).proximo_id = countCad ops + 1) ∧
    (∀ (pre : List Op) (w : ℚ) (c : String) (l : ℚ),
      (((runOps SistemaProducao.empty pre).cadastrar_peca w c l).2.1).id =
        countCad pre + 1) := by
  constructor
  · intro ops
    rw [runOps_proximo]
    show 1 + countCad ops = countCad ops + 1
    omega
  · intro pre w c l
    rw [cadastrar_ret_id, runOps_proximo]
    show 1 + countCad pre = countCad pre + 1
    omega

/-- The part value produced by registering the i-th passing request when all
parts land in box 1. -/
def aprovadaPeca (i : Nat) (e : Entrada) : Peca :=
  ⟨i, e.1, strToLower e.2.1, e.2.2, true, [], some 1⟩

/-- The parts created for the requests `es`, ids starting at `i`, all packed
in box 1. -/
def pecasDeFrom (i : Nat) : List Entrada → List Peca
  | [] => []
  | e :: rest => aprovadaPeca i e :: pecasDeFrom (i + 1) rest

/-- The ledger state after registering the passing requests `es` (at most 10
of them) consecutively from the empty state. -/
def estadoCheio (es : List Entrada) : SistemaProducao :=
  if es.length = 0 then SistemaProducao.empty
  else
    { pecas_aprovadas := List.range' 1 es.length
      pecas_reprovadas := []
      todas_pecas := pecasDeFrom 1 es
      caixas := [⟨0, 1, List.range' 1 es.length, decide (es.length = 10)⟩]
      caixa_atual := some 0
      proximo_id := es.length + 1
      next_uid := 1 }

lemma passa_inspecionar (w : ℚ) (c : String) (l : ℚ) (i : Nat)
    (h : passa (w, c, l) = true) :
    ControleQualidade.inspecionar_peca (Peca.init i w c l) =
      ({ Peca.init i w c l with aprovada := true }, true) := by
  have hm : ControleQualidade.motivosDe (Peca.init i w c l) =
      ControleQualidade.motivosDe (Peca.init 0 w c l) := rfl
  unfold ControleQualidade.inspecionar_peca
  dsimp only
  rw [hm]
  split
  · rfl
  · exfalso
    rename_i hn
    unfold passa ControleQualidade.inspecionar_peca at h
    dsimp only at h
    rw [if_neg hn] at h
    exact Bool.false_ne_true h

lemma pecasDeFrom_append (es : List Entrada) (e : Entrada) : ∀ i,
    pecasDeFrom i (es ++ [e]) = pecasDeFrom i es ++ [aprovadaPeca (i + es.length) e] := by
  induction es with
  | nil => intro i; simp [pecasDeFrom]
  | cons x rest ih =>
    intro i
    have he : i + 1 + rest.length = i + (rest.length + 1) := by omega
    simp only [List.cons_append, pecasDeFrom, List.length_cons, List.append_eq]
    rw [ih, he]

lemma registrar_empty (w : ℚ) (c : String) (l : ℚ) (h : passa (w, c, l) = true) :
    registrar SistemaProducao.empty (w, c, l) = estadoCheio [(w, c, l)] := by
  unfold registrar SistemaProducao.cadastrar_peca
  dsimp only
  rw [passa_inspecionar w c l _ h]
  rfl

lemma registrar_cheio (es : List Entrada) (w : ℚ) (c : String) (l : ℚ)
    (h : passa (w, c, l) = true) (h1 : 1 ≤ es.length) (h9 : es.length ≤ 9) :
    registrar (estadoCheio es) (w, c, l) = estadoCheio (es ++ [(w, c, l)]) := by
  have hk0 : ¬ es.length = 0 := by omega
  have hk0' : ¬ (es ++ [(w, c, l)]).length = 0 := by simp
  have hd1 : decide ((10 : Nat) ≤ List.length es) = false := decide_eq_false (by omega)
  have hd2 : decide (List.length es = 10) = false := decide_eq_false (by omega)
  have hlt : List.length es < 10 := by omega
  have harith : 1 + 1 * List.length es = List.length es + 1 := by omega
  unfold registrar SistemaProducao.cadastrar_peca
  rw [estadoCheio, if_neg hk0, estadoCheio, if_neg hk0']
  dsimp only
  rw [passa_inspecionar w c l _ h]
  dsimp only
  unfold SistemaProducao.armazenar_peca SistemaProducao.adicionarNaAtual
    SistemaProducao.caixaAtualObj
  simp only [List.find?, Caixa.esta_cheia, Caixa.CAPACIDADE_MAXIMA, List.length_range',
    beq_self_eq_true, Option.map_some', Option.getD_some, hd1, hd2, decide_False,
    Bool.false_eq_true, if_false, Caixa.adicionar_peca, List.length_append,
    List.length_cons, List.length_nil, if_pos hlt, pecasDeFrom_append,
    List.range'_concat, Nat.mul_one, harith, List.map_cons, List.map_nil]
  by_cases hfin : List.length es + 1 = 10
  · simp [hfin, Peca.init, aprovadaPeca, show (1 : Nat) + List.length es = 10 from by omega]
  · have h9' : ¬ List.length es = 9 := by omega
    simp [if_neg hfin, decide_eq_false hfin, if_neg h9', decide_eq_false h9', Peca.init,
      aprovadaPeca, show (1 : Nat) + List.length es = List.length es + 1 from by omega]

lemma registrar_full (es : List Entrada) (w : ℚ) (c : String) (l : ℚ)
    (h : passa (w, c, l) = true) (hlen : es.length = 10) :
    registrar (estadoCheio es) (w, c, l) =
      { pecas_aprovadas := List.range' 1 10 ++ [11]
        pecas_reprovadas := []
        todas_pecas := pecasDeFrom 1 es ++ [⟨11, w, strToLower c, l, true, [], some 2⟩]
        caixas := [⟨0, 1, List.range' 1 10, true⟩, ⟨1, 2, [11], false⟩]
        caixa_atual := some 1
        proximo_id := 12
        next_uid := 2 } := by
  have hk0 : ¬ es.length = 0 := by omega
  unfold registrar SistemaProducao.cadastrar_peca
  rw [estadoCheio, if_neg hk0]
  dsimp only
  rw [passa_inspecionar w c l _ h]
  dsimp only
  unfold SistemaProducao.armazenar_peca SistemaProducao.adicionarNaAtual
    SistemaProducao.caixaAtualObj
  simp [hlen, Caixa.esta_cheia, Caixa.CAPACIDADE_MAXIMA, List.find?,
    Caixa.adicionar_peca, Peca.init]

lemma registerAll_passa : ∀ es : List Entrada, (∀ e ∈ es, passa e = true) →
    es.length ≤ 10 → registerAll SistemaProducao.empty es = estadoCheio es := by
  intro es
  induction es using List.reverseRecOn with
  | nil => intro _ _; rfl
  | append_singleton es e ih =>
    intro hp hlen
    obtain ⟨w, c, l⟩ := e
    have hp' : ∀ x ∈ es, passa x = true := fun x hx => hp x (List.mem_append_left _ hx)
    have hpe : passa (w, c, l) = true := hp _ (List.mem_append_right _ (by simp))
    have hlen2 : es.length + 1 ≤ 10 := by simpa using hlen
    have hstep : registerAll SistemaProducao.empty (es ++ [(w, c, l)]) =
        registrar (registerAll SistemaProducao.empty es) (w, c, l) := by
      simp [registerAll, List.foldl_append]
    rw [hstep, ih hp' (by omega)]
    by_cases h0 : es.length = 0
    · obtain rfl : es = [] := List.length_eq_zero.mp h0
      rw [show estadoCheio [] = SistemaProducao.empty from rfl, List.nil_append]
      exact registrar_empty w c l hpe
    · exact registrar_cheio es w c l hpe (by omega) (by omega)

lemma pecasDeFrom_map_id : ∀ (es : List Entrada) (i : Nat),
    (pecasDeFrom i es).map Peca.id = List.range' i es.length := by
  intro es
  induction es with
  | nil => intro i; rfl
  | cons x rest ih =>
    intro i
    simp only [pecasDeFrom, List.map_cons, ih, List.length_cons, List.range'_succ]
    rfl

/-- C2: registering 10 passing parts consecutively from the empty ledger
yields exactly one box, closed, holding parts 1..10 in registration order;
an 11th passing registration creates a second box (number 2) and places the
11th part (id 11) in it, making it current. -/
theorem claim_C2 (es : List Entrada) (hlen : es.length = 11)
    (hp : ∀ e ∈ es, passa e = true) :
    (registerAll SistemaProducao.empty (es.take 10)).caixas =
        [⟨0, 1, List.range' 1 10, true⟩] ∧
    (registerAll SistemaProducao.empty (es.take 10)).todas_pecas.map Peca.id =
        List.range' 1 10 ∧
    (registerAll SistemaProducao.empty es).caixas =
        [⟨0, 1, List.range' 1 10, true⟩, ⟨1, 2, [11], false⟩] ∧
    (registerAll SistemaProducao.empty es).caixa_atual = some 1 ∧
    ∃ q : Peca, (registerAll SistemaProducao.empty es).todas_pecas.getLast? = some q ∧
      q.id = 11 ∧ q.caixa = some 2 := by
  have h10 : (es.take 10).length = 10 := by simp [hlen]
  have hk0 : ¬ (es.take 10).length = 0 := by omega
  have hA : registerAll SistemaProducao.empty (es.take 10) = estadoCheio (es.take 10) :=
    registerAll_passa _ (fun e he => hp e (List.mem_of_mem_take he)) (by omega)
  obtain ⟨e11, hdrop⟩ : ∃ a, es.drop 10 = [a] := by
    rw [← List.length_eq_one]
    simp [hlen]
  have hsplit : es = es.take 10 ++ [e11] := by
    conv_lhs => rw [← List.take_append_drop 10 es]
    rw [hdrop]
  have hpe : passa e11 = true := by
    apply hp
    rw [hsplit]
    exact List.mem_append_right _ (by simp)
  obtain ⟨w, c, l⟩ := e11
  have hB : registerAll SistemaProducao.empty es =
      registrar (estadoCheio (es.take 10)) (w, c, l) := by
    conv_lhs => rw [hsplit]
    rw [show registerAll SistemaProducao.empty (es.take 10 ++ [(w, c, l)]) =
        registrar (registerAll SistemaProducao.empty (es.take 10)) (w, c, l) from by
      simp [registerAll, List.foldl_append], hA]
  rw [hA, hB, registrar_full _ w c l hpe h10]
  refine ⟨?_, ?_, rfl, rfl, ⟨11, w, strToLower c, l, true, [], some 2⟩, ?_, rfl, rfl⟩
  · rw [estadoCheio, if_neg hk0]
    simp [h10]
  · rw [estadoCheio, if_neg hk0]
    dsimp only
    rw [pecasDeFrom_map_id, h10]
  · exact List.getLast?_concat _

/-- Concrete instantiation of `claim_C2`: eleven copies of the passing
request `(100, "azul", 15)`. -/
theorem claim_C2_witness :
    ((List.replicate 11 ((100 : ℚ), "azul", (15 : ℚ))).length = 11 ∧
      (∀ e ∈ List.replicate 11 ((100 : ℚ), "azul", (15 : ℚ)), passa e = true)) ∧
    ((registerAll SistemaProducao.empty
        ((List.replicate 11 ((100 : ℚ), "azul", (15 : ℚ))).take 10)).caixas =
        [⟨0, 1, List.range' 1 10, true⟩] ∧
    (registerAll SistemaProducao.empty
        ((List.replicate 11 ((100 : ℚ), "azul", (15 : ℚ))).take 10)).todas_pecas.map Peca.id =
        List.range' 1 10 ∧
    (registerAll SistemaProducao.empty (List.replicate 11 ((100 : ℚ), "azul", (15 : ℚ)))).caixas =
        [⟨0, 1, List.range' 1 10, true⟩, ⟨1, 2, [11], false⟩] ∧
    (registerAll SistemaProducao.empty
        (List.replicate 11 ((100 : ℚ), "azul", (15 : ℚ)))).caixa_atual = some 1 ∧
    ∃ q : Peca,
      (registerAll SistemaProducao.empty
        (List.replicate 11 ((100 : ℚ), "azul", (15 : ℚ)))).todas_pecas.getLast? = some q ∧
      q.id = 11 ∧ q.caixa = some 2) :=
  ⟨⟨rfl, by decide⟩, claim_C2 _ rfl (by decide)⟩

/-! ## Box-numbering invariants (C3) -/

/-- Allocation sanity of the box list: object identities (`uid`) are pairwise
distinct and below the allocation counter. -/
def BoxInv (s : SistemaProducao) : Prop :=
  (s.caixas.map Caixa.uid).Nodup ∧ ∀ c ∈ s.caixas, c.uid < s.next_uid

lemma nodup_uid_inj {caixas : List Caixa} (hno : (caixas.map Caixa.uid).Nodup)
    {b c : Caixa} (hb : b ∈ caixas) (hc : c ∈ caixas) (h : b.uid = c.uid) : b = c :=
  List.inj_on_of_nodup_map hno hb hc h

lemma map_update_eq {α : Type} (caixas : List Caixa) (c x : Caixa)
    (hno : (caixas.map Caixa.uid).Nodup) (hc : c ∈ caixas) (f : Caixa → α)
    (hf : f x = f c) :
    ((caixas.map (fun b => if b.uid == c.uid then x else b)).map f) = caixas.map f := by
  rw [List.map_map]
  apply List.map_congr_left
  intro b hb
  by_cases hbu : b.uid = c.uid
  · have hbc : b = c := nodup_uid_inj hno hb hc hbu
    simp [hbu, hf, hbc]
  · simp [hbu]

/-- The box numbers of the ledger are exactly `1..n` in order. -/
def NumerosSequenciais (s : SistemaProducao) : Prop :=
  s.caixas.map Caixa.numero = List.range' 1 s.caixas.length


lemma adicionarNaAtual_invariantes (s : SistemaProducao) (p : Peca)
    (hno : (s.caixas.map Caixa.uid).Nodup) (hlt : ∀ c ∈ s.caixas, c.uid < s.next_uid)
    (hnum : s.caixas.map Caixa.numero = List.range' 1 s.caixas.length) :
    BoxInv ((s.adicionarNaAtual p).1) ∧ NumerosSequenciais ((s.adicionarNaAtual p).1) := by
  unfold SistemaProducao.adicionarNaAtual
  cases hobj : s.caixaAtualObj with
  | none => exact ⟨⟨hno, hlt⟩, hnum⟩
  | some c =>
    have hcmem : c ∈ s.caixas := by
      unfold SistemaProducao.caixaAtualObj at hobj
      split at hobj
      · cases hobj
      · exact List.mem_of_find?_eq_some hobj
    dsimp only
    refine ⟨⟨?_, ?_⟩, ?_⟩
    · show ((s.caixas.map fun b => if b.uid == c.uid then
          (c.adicionar_peca p.id).1 else b).map Caixa.uid).Nodup
      rw [map_update_eq s.caixas c _ hno hcmem Caixa.uid (adicionar_uid c p.id)]
      exact hno
    · intro b hb
      obtain ⟨b0, hb0, rfl⟩ := List.mem_map.mp hb
      by_cases hbu : b0.uid = c.uid
      · rw [if_pos (by simpa using hbu), adicionar_uid]
        exact hlt c hcmem
      · rw [if_neg (by simpa using hbu)]
        exact hlt b0 hb0
    · show ((s.caixas.map fun b => if b.uid == c.uid then
          (c.adicionar_peca p.id).1 else b).map Caixa.numero) =
        List.range' 1 ((s.caixas.map fun b => if b.uid == c.uid then
          (c.adicionar_peca p.id).1 else b).length)
      rw [map_update_eq s.caixas c _ hno hcmem Caixa.numero (adicionar_numero c p.id),
        List.length_map, hnum]

lemma armazenar_invariantes (s : SistemaProducao) (p : Peca)
    (h : BoxInv s ∧ NumerosSequenciais s) :
    BoxInv ((s.armazenar_peca p).1) ∧ NumerosSequenciais ((s.armazenar_peca p).1) := by
  obtain ⟨⟨hno, hlt⟩, hnum⟩ := h
  have harith : 1 + 1 * s.caixas.length = s.caixas.length + 1 := by omega
  unfold SistemaProducao.armazenar_peca
  dsimp only
  split
  · apply adicionarNaAtual_invariantes
    · show ((s.caixas ++ [(⟨s.next_uid, s.caixas.length + 1, [], false⟩ : Caixa)]).map Caixa.uid).Nodup
      rw [List.map_append, List.nodup_append]
      refine ⟨hno, List.nodup_singleton _, ?_⟩
      intro a ha hb
      simp only [List.map_cons, List.map_nil, List.mem_singleton] at hb
      obtain ⟨cc, hcc, rfl⟩ := List.mem_map.mp ha
      have := hlt cc hcc
      omega
    · intro b hb
      show b.uid < s.next_uid + 1
      rcases List.mem_append.mp hb with h1 | h2
      · have := hlt b h1
        omega
      · simp only [List.mem_singleton] at h2
        subst h2
        simp
    · show ((s.caixas ++ [(⟨s.next_uid, s.caixas.length + 1, [], false⟩ : Caixa)]).map Caixa.numero) =
        List.range' 1 ((s.caixas ++ [(⟨s.next_uid, s.caixas.length + 1, [], false⟩ : Caixa)]).length)
      rw [List.map_append, hnum, List.length_append]
      simp [List.range'_concat, harith]
      omega
  · exact adicionarNaAtual_invariantes s p hno hlt hnum

lemma cadastrar_invariantes (s : SistemaProducao) (w : ℚ) (c : String) (l : ℚ)
    (h : BoxInv s ∧ NumerosSequenciais s) :
    BoxInv ((s.cadastrar_peca w c l).1) ∧
      NumerosSequenciais ((s.cadastrar_peca w c l).1) := by
  unfold SistemaProducao.cadastrar_peca
  dsimp only
  split
  · exact armazenar_invariantes _ _ h
  · exact h

lemma registerAll_invariantes (es : List Entrada) : ∀ s : SistemaProducao,
    BoxInv s ∧ NumerosSequenciais s →
      BoxInv (registerAll s es) ∧ NumerosSequenciais (registerAll s es) := by
  induction es with
  | nil => intro s h; exact h
  | cons e rest ih => intro s h; exact ih _ (cadastrar_invariantes _ _ _ _ h)

lemma caixaRemover_numero (c : Caixa) (pid : Nat) :
    ((c.remover_peca pid).1).numero = c.numero := by
  unfold Caixa.remover_peca
  split <;> rfl

lemma removerDeCaixas_numeros_sublist (pid : Nat) : ∀ caixas : List Caixa,
    (((removerDeCaixas pid caixas).1).map Caixa.numero).Sublist
      (caixas.map Caixa.numero) := by
  intro caixas
  induction caixas with
  | nil => simp [removerDeCaixas]
  | cons c rest ih =>
    unfold removerDeCaixas
    dsimp only
    split
    · split
      · exact List.sublist_cons_self _ _
      · rw [List.map_cons, List.map_cons, caixaRemover_numero]
    · rw [List.map_cons, List.map_cons]
      exact ih.cons₂ _

lemma remover_numeros_sublist (s : SistemaProducao) (pid : Nat) :
    ((((s.remover_peca pid).1).caixas).map Caixa.numero).Sublist
      (s.caixas.map Caixa.numero) := by
  unfold SistemaProducao.remover_peca
  dsimp only
  split
  · exact List.Sublist.refl _
  · split
    · repeat' split
      all_goals exact removerDeCaixas_numeros_sublist pid s.caixas
    · exact List.Sublist.refl _

/-- The register operation used in the duplicate-number scenario: a part that
passes every rule. -/
def exRegistro : Op := .cadastrar 100 "azul" 15

/-- The operation sequence exhibiting duplicate box numbers: fill box 1 and
start box 2 (11 passing parts), remove parts 1..10 so that box 1 is deleted,
then register 10 more passing parts: box 2 fills up and the next box is
numbered `len(caixas) + 1 = 2` again. -/
def exSequencia : List Op :=
  List.replicate 11 exRegistro ++ (List.range' 1 10).map Op.remover ++
    List.replicate 10 exRegistro

set_option maxRecDepth 4000 in
/-- C3 counterexample: after `exSequencia`, the ledger holds two boxes that
both carry the identity number 2 — the box numbers in the ledger are not
pairwise distinct after an emptied box has been deleted. -/
theorem claim_C3_counterexample :
    (runOps SistemaProducao.empty exSequencia).caixas.map Caixa.numero = [2, 2] ∧
    ¬ ((runOps SistemaProducao.empty exSequencia).caixas.map Caixa.numero).Nodup := by
  have h : (runOps SistemaProducao.empty exSequencia).caixas.map Caixa.numero = [2, 2] := by
    decide
  refine ⟨h, ?_⟩
  rw [h]
  decide

/-- C3 (amended): boxes are numbered `len(caixas) + 1` at creation, so in any
register-only sequence from the empty ledger the box numbers are exactly
`1..n` in creation order (pairwise distinct and starting at 1), and a removal
never renumbers the surviving boxes (the numbers of the resulting box list
form a sublist of the previous ones); but after an emptied box has been
deleted, a later registration can create a box whose number duplicates that
of a live box, so the numbers in the ledger are not always pairwise
distinct. -/
theorem claim_C3_amended :
    (∀ es : List Entrada,
      (registerAll SistemaProducao.empty es).caixas.map Caixa.numero =
        List.range' 1 ((registerAll SistemaProducao.empty es).caixas.length)) ∧
    (∀ (s : SistemaProducao) (pid : Nat),
      ((((s.remover_peca pid).1).caixas).map Caixa.numero).Sublist
        (s.caixas.map Caixa.numero)) := by
  constructor
  · intro es
    exact (registerAll_invariantes es SistemaProducao.empty
      ⟨⟨List.nodup_nil, by intro c hc; cases hc⟩, rfl⟩).2
  · exact remover_numeros_sublist

lemma removerDeCaixas_decomp (pid : Nat) (b : Caixa) (post : List Caixa)
    (hin : pid ∈ b.pecas) : ∀ pre : List Caixa, (∀ c ∈ pre, pid ∉ c.pecas) →
    removerDeCaixas pid (pre ++ b :: post) =
      if (b.pecas.erase pid).length = 0 then
        (pre ++ post, some (⟨b.uid, b.numero, b.pecas.erase pid, false⟩, true))
      else
        (pre ++ ⟨b.uid, b.numero, b.pecas.erase pid, false⟩ :: post,
          some (⟨b.uid, b.numero, b.pecas.erase pid, false⟩, false)) := by
  intro pre
  induction pre with
  | nil =>
    intro _
    simp only [List.nil_append]
    unfold removerDeCaixas
    dsimp only
    rw [show Caixa.remover_peca b pid =
        (⟨b.uid, b.numero, b.pecas.erase pid, false⟩, true) from by
      unfold Caixa.remover_peca
      rw [if_pos hin]]
    dsimp only
    rw [if_pos rfl]
    unfold Caixa.esta_vazia
    by_cases he : (b.pecas.erase pid).length = 0
    · rw [if_pos (by simpa using he), if_pos he]
    · rw [if_neg (by simpa using he), if_neg he]
  | cons c rest ih =>
    intro hpre
    have hc : pid ∉ c.pecas := hpre c (by simp)
    simp only [List.cons_append]
    unfold removerDeCaixas
    dsimp only
    rw [show Caixa.remover_peca c pid = (c, false) from by
      unfold Caixa.remover_peca
      rw [if_neg hc]]
    dsimp only
    rw [if_neg (by simp)]
    rw [ih (fun x hx => hpre x (by simp [hx]))]
    by_cases he : (b.pecas.erase pid).length = 0
    · rw [if_pos he, if_pos he]
    · rw [if_neg he, if_neg he]

/-- C4: removing (by id) a part stored in a closed box — `b` being the first
box of the sequence containing the id — reopens that box (`fechada` becomes
`false`) and decreases its part count by exactly one; if the removed part was
the box's last one, the box is deleted from the sequence, and if the deleted
box was the current box, the current box becomes the last remaining box, or
none if the sequence became empty. -/
theorem claim_C4 (s : SistemaProducao) (pid : Nat) (p : Peca)
    (pre : List Caixa) (b : Caixa) (post : List Caixa)
    (hfind : s.todas_pecas.find? (fun q => q.id == pid) = some p)
    (hap : p.aprovada = true)
    (hdec : s.caixas = pre ++ b :: post)
    (hpre : ∀ c ∈ pre, pid ∉ c.pecas)
    (hin : pid ∈ b.pecas)
    (hcl : b.fechada = true) :
    (b.pecas.erase pid).length + 1 = b.pecas.length ∧
    (¬ (b.pecas.erase pid).length = 0 →
      ((s.remover_peca pid).1).caixas =
        pre ++ ⟨b.uid, b.numero, b.pecas.erase pid, false⟩ :: post ∧
      ((s.remover_peca pid).1).caixa_atual = s.caixa_atual) ∧
    ((b.pecas.erase pid).length = 0 →
      ((s.remover_peca pid).1).caixas = pre ++ post ∧
      (s.caixa_atual = some b.uid →
        ((s.remover_peca pid).1).caixa_atual = ((pre ++ post).getLast?).map Caixa.uid) ∧
      (¬ s.caixa_atual = some b.uid →
        ((s.remover_peca pid).1).caixa_atual = s.caixa_atual)) := by
  have hlen : (b.pecas.erase pid).length + 1 = b.pecas.length := by
    rw [List.length_erase_of_mem hin]
    have : 0 < b.pecas.length := List.length_pos.mpr (List.ne_nil_of_mem hin)
    omega
  refine ⟨hlen, ?_, ?_⟩
  all_goals intro he
  · unfold SistemaProducao.remover_peca
    rw [hfind]
    dsimp only
    rw [if_pos hap]
    dsimp only
    rw [hdec, removerDeCaixas_decomp pid b post hin pre hpre, if_neg he]
    dsimp only
    exact ⟨rfl, rfl⟩
  · unfold SistemaProducao.remover_peca
    rw [hfind]
    dsimp only
    rw [if_pos hap]
    dsimp only
    rw [hdec, removerDeCaixas_decomp pid b post hin pre hpre, if_pos he]
    dsimp only
    refine ⟨by split <;> rfl, ?_, ?_⟩
    · intro hat
      rw [if_pos hat]
    · intro hat
      rw [if_neg hat]

/-- Concrete ledger for the `claim_C4` witness: ten approved parts in one
closed box. -/
def sW4 : SistemaProducao :=
  ⟨List.range' 1 10, [],
    (List.range' 1 10).map (fun i => ⟨i, 100, "azul", 15, true, [], some 1⟩),
    [⟨0, 1, List.range' 1 10, true⟩], some 0, 11, 1⟩

/-- The closed box of `sW4`. -/
def caixaW4 : Caixa := ⟨0, 1, List.range' 1 10, true⟩

/-- The part of `sW4` removed by the `claim_C4` witness. -/
def pecaW4 : Peca := ⟨5, 100, "azul", 15, true, [], some 1⟩

/-- Concrete instantiation of `claim_C4`: removing part 5 from the full
closed box of `sW4` reopens it with nine parts. -/
theorem claim_C4_witness :
    (sW4.todas_pecas.find? (fun q => q.id == 5) = some pecaW4 ∧
     pecaW4.aprovada = true ∧
     sW4.caixas = [] ++ caixaW4 :: [] ∧
     (∀ c ∈ ([] : List Caixa), (5 : Nat) ∉ c.pecas) ∧
     (5 : Nat) ∈ caixaW4.pecas ∧
     caixaW4.fechada = true) ∧
    ((caixaW4.pecas.erase 5).length + 1 = caixaW4.pecas.length ∧
    (¬ (caixaW4.pecas.erase 5).length = 0 →
      ((sW4.remover_peca 5).1).caixas =
        [] ++ ⟨caixaW4.uid, caixaW4.numero, caixaW4.pecas.erase 5, false⟩ :: [] ∧
      ((sW4.remover_peca 5).1).caixa_atual = sW4.caixa_atual) ∧
    ((caixaW4.pecas.erase 5).length = 0 →
      ((sW4.remover_peca 5).1).caixas = [] ++ ([] : List Caixa) ∧
      (sW4.caixa_atual = some caixaW4.uid →
        ((sW4.remover_peca 5).1).caixa_atual =
          ((([] : List Caixa) ++ []).getLast?).map Caixa.uid) ∧
      (¬ sW4.caixa_atual = some caixaW4.uid →
        ((sW4.remover_peca 5).1).caixa_atual = sW4.caixa_atual))) :=
  ⟨⟨by decide, rfl, by decide, by decide, by decide, rfl⟩,
    claim_C4 sW4 5 pecaW4 [] caixaW4 [] (by decide) rfl (by decide) (by decide)
      (by decide) rfl⟩

lemma find?_append_of_none {p : Caixa → Bool} {l1 l2 : List Caixa}
    (h : ∀ x ∈ l1, p x = false) : (l1 ++ l2).find? p = l2.find? p := by
  rw [List.find?_append, List.find?_eq_none.mpr (fun x hx => by simp [h x hx]),
    Option.none_or]

lemma armazenar_caixas_frame (s : SistemaProducao) (p : Peca)
    (hno : (s.caixas.map Caixa.uid).Nodup)
    (hlt : ∀ c ∈ s.caixas, c.uid < s.next_uid)
    (hcf : ∀ c ∈ s.caixas, c.fechada = true → c.esta_cheia = true) :
    (∃ novo : Caixa, ((s.armazenar_peca p).1).caixas = s.caixas ++ [novo] ∧
        novo.pecas = [p.id]) ∨
    (∃ (pre : List Caixa) (b b' : Caixa) (post : List Caixa),
        s.caixas = pre ++ b :: post ∧
        ((s.armazenar_peca p).1).caixas = pre ++ b' :: post ∧
        b'.uid = b.uid ∧ b'.numero = b.numero ∧ b'.pecas = b.pecas ++ [p.id]) := by
  unfold SistemaProducao.armazenar_peca
  dsimp only
  split
  · -- a fresh box is created and receives the part
    unfold SistemaProducao.adicionarNaAtual
    dsimp only
    have hobj : ({ s with
        caixas := s.caixas ++ [(⟨s.next_uid, s.caixas.length + 1, [], false⟩ : Caixa)],
        caixa_atual := some s.next_uid,
        next_uid := s.next_uid + 1 } : SistemaProducao).caixaAtualObj =
        some ⟨s.next_uid, s.caixas.length + 1, [], false⟩ := by
      unfold SistemaProducao.caixaAtualObj
      dsimp only
      rw [find?_append_of_none (fun x hx => by
        simp only [beq_eq_false_iff_ne, ne_eq]
        exact Nat.ne_of_lt (hlt x hx))]
      simp [List.find?]
    rw [hobj]
    dsimp only
    have hadd : Caixa.adicionar_peca ⟨s.next_uid, s.caixas.length + 1, [], false⟩ p.id =
        (⟨s.next_uid, s.caixas.length + 1, [p.id], false⟩, true) := by
      unfold Caixa.adicionar_peca Caixa.CAPACIDADE_MAXIMA
      norm_num
    rw [hadd]
    dsimp only
    left
    refine ⟨⟨s.next_uid, s.caixas.length + 1, [p.id], false⟩, ?_, rfl⟩
    rw [List.map_append]
    congr 1
    · rw [List.map_congr_left (fun b hb => if_neg (by
        simp only [beq_iff_eq]
        exact Nat.ne_of_lt (hlt b hb)))]
      exact List.map_id _
    · simp
  · -- the current box has room and receives the part
    rename_i hneed
    rcases hobj : s.caixaAtualObj with _ | c
    · rw [hobj] at hneed
      simp at hneed
    · rw [hobj] at hneed
      simp only [Option.map_some', Option.getD_some] at hneed
      have hcmem : c ∈ s.caixas := by
        unfold SistemaProducao.caixaAtualObj at hobj
        split at hobj
        · cases hobj
        · exact List.mem_of_find?_eq_some hobj
      have hfech : c.fechada = false := by
        rcases hf : c.fechada with _ | _
        · rfl
        · exact absurd (hcf c hcmem hf) hneed
      have hlen : c.pecas.length < 10 := by
        unfold Caixa.esta_cheia Caixa.CAPACIDADE_MAXIMA at hneed
        simpa using hneed
      unfold SistemaProducao.adicionarNaAtual
      dsimp only
      rw [hobj]
      dsimp only
      right
      obtain ⟨pre, post, hdec⟩ := List.append_of_mem hcmem
      have hno' := hno
      rw [hdec, List.map_append, List.map_cons, List.nodup_append, List.nodup_cons] at hno'
      obtain ⟨hn1, ⟨hcpost, hn2⟩, hdisj⟩ := hno'
      have hpre2 : ∀ b ∈ pre, ¬ b.uid = c.uid := by
        intro b hb hbc
        exact hdisj (List.mem_map_of_mem Caixa.uid hb) (by rw [hbc]; exact List.mem_cons_self _ _)
      have hpost2 : ∀ b ∈ post, ¬ b.uid = c.uid := by
        intro b hb hbc
        exact hcpost (by rw [← hbc]; exact List.mem_map_of_mem Caixa.uid hb)
      refine ⟨pre, c, (c.adicionar_peca p.id).1, post, hdec, ?_,
        adicionar_uid c p.id, adicionar_numero c p.id, ?_⟩
      · rw [hdec, List.map_append, List.map_cons]
        congr 1
        · rw [List.map_congr_left (fun b hb => if_neg (by
            simp only [beq_iff_eq]
            exact hpre2 b hb))]
          exact List.map_id _
        · rw [show ((if c.uid == c.uid then (c.adicionar_peca p.id).1 else c) : Caixa) =
            (c.adicionar_peca p.id).1 from if_pos (by simp)]
          congr 1
          rw [List.map_congr_left (fun b hb => if_neg (by
            simp only [beq_iff_eq]
            exact hpost2 b hb))]
          exact List.map_id _
      · unfold Caixa.adicionar_peca Caixa.CAPACIDADE_MAXIMA
        rw [if_neg (by simp [hfech]), if_pos hlen]
        dsimp only
        split <;> rfl

/-- C10: a registration appends exactly one new part to the end of the master
list and of exactly one derived list (approved or rejected, by verdict), and
leaves everything else untouched: previously registered parts are unchanged
and keep their order, and every box other than the receiving one (the current
box, or a freshly appended one) is unchanged, the receiving box gaining
exactly the new part at the end of its contents.  The hypotheses state the
well-formedness every reachable ledger satisfies: box identities are distinct
and below the allocation counter, the current-box reference is live, and
closed boxes are full. -/
theorem claim_C10 (s : SistemaProducao) (w : ℚ) (cor : String) (l : ℚ)
    (hno : (s.caixas.map Caixa.uid).Nodup)
    (hlt : ∀ c ∈ s.caixas, c.uid < s.next_uid)
    (hval : s.caixa_atual.all (fun u => s.caixas.any (fun c => c.uid == u)) = true)
    (hcf : ∀ c ∈ s.caixas, c.fechada = true → c.esta_cheia = true) :
    ((s.cadastrar_peca w cor l).1).todas_pecas =
        s.todas_pecas ++ [(s.cadastrar_peca w cor l).2.1] ∧
    ((s.cadastrar_peca w cor l).2.2.1 = true →
      ((s.cadastrar_peca w cor l).1).pecas_aprovadas =
          s.pecas_aprovadas ++ [(s.cadastrar_peca w cor l).2.1.id] ∧
      ((s.cadastrar_peca w cor l).1).pecas_reprovadas = s.pecas_reprovadas) ∧
    ((s.cadastrar_peca w cor l).2.2.1 = false →
      ((s.cadastrar_peca w cor l).1).pecas_reprovadas =
          s.pecas_reprovadas ++ [(s.cadastrar_peca w cor l).2.1.id] ∧
      ((s.cadastrar_peca w cor l).1).pecas_aprovadas = s.pecas_aprovadas) ∧
    ((s.cadastrar_peca w cor l).2.2.1 = false →
      ((s.cadastrar_peca w cor l).1).caixas = s.caixas) ∧
    ((s.cadastrar_peca w cor l).2.2.1 = true →
      (∃ novo : Caixa, ((s.cadastrar_peca w cor l).1).caixas = s.caixas ++ [novo] ∧
          novo.pecas = [(s.cadastrar_peca w cor l).2.1.id]) ∨
      (∃ (pre : List Caixa) (b b' : Caixa) (post : List Caixa),
          s.caixas = pre ++ b :: post ∧
          ((s.cadastrar_peca w cor l).1).caixas = pre ++ b' :: post ∧
          b'.uid = b.uid ∧ b'.numero = b.numero ∧
          b'.pecas = b.pecas ++ [(s.cadastrar_peca w cor l).2.1.id])) := by
  refine ⟨?_, ?_, ?_, ?_, ?_⟩
  · unfold SistemaProducao.cadastrar_peca
    dsimp only
    split
    · rw [armazenar_todas]
    · rfl
  · unfold SistemaProducao.cadastrar_peca
    dsimp only
    split
    · intro _
      refine ⟨?_, ?_⟩
      · rw [armazenar_aprovadas, armazenar_ret_id]
      · rw [armazenar_reprovadas]
    · intro h
      simp at h
  · unfold SistemaProducao.cadastrar_peca
    dsimp only
    split
    · intro h
      simp at h
    · intro _
      exact ⟨rfl, rfl⟩
  · unfold SistemaProducao.cadastrar_peca
    dsimp only
    split
    · intro h
      simp at h
    · intro _
      rfl
  · unfold SistemaProducao.cadastrar_peca
    dsimp only
    split
    · intro _
      rw [armazenar_ret_id]
      exact armazenar_caixas_frame _ _ hno hlt hcf
    · intro h
      simp at h

/-- Concrete ledger for the `claim_C10` witness: one part already registered,
its box open with room. -/
def sW10 : SistemaProducao := (SistemaProducao.empty.cadastrar_peca 100 "azul" 15).1

/-- Concrete instantiation of `claim_C10`: registering a second passing part
`(100, "verde", 15)` on `sW10`. -/
theorem claim_C10_witness :
    ((sW10.caixas.map Caixa.uid).Nodup ∧
     (∀ c ∈ sW10.caixas, c.uid < sW10.next_uid) ∧
     sW10.caixa_atual.all (fun u => sW10.caixas.any (fun c => c.uid == u)) = true ∧
     (∀ c ∈ sW10.caixas, c.fechada = true → c.esta_cheia = true)) ∧
    (((sW10.cadastrar_peca 100 "verde" 15).1).todas_pecas =
        sW10.todas_pecas ++ [(sW10.cadastrar_peca 100 "verde" 15).2.1] ∧
    ((sW10.cadastrar_peca 100 "verde" 15).2.2.1 = true →
      ((sW10.cadastrar_peca 100 "verde" 15).1).pecas_aprovadas =
          sW10.pecas_aprovadas ++ [(sW10.cadastrar_peca 100 "verde" 15).2.1.id] ∧
      ((sW10.cadastrar_peca 100 "verde" 15).1).pecas_reprovadas = sW10.pecas_reprovadas) ∧
    ((sW10.cadastrar_peca 100 "verde" 15).2.2.1 = false →
      ((sW10.cadastrar_peca 100 "verde" 15).1).pecas_reprovadas =
          sW10.pecas_reprovadas ++ [(sW10.cadastrar_peca 100 "verde" 15).2.1.id] ∧
      ((sW10.cadastrar_peca 100 "verde" 15).1).pecas_aprovadas = sW10.pecas_aprovadas) ∧
    ((sW10.cadastrar_peca 100 "verde" 15).2.2.1 = false →
      ((sW10.cadastrar_peca 100 "verde" 15).1).caixas = sW10.caixas) ∧
    ((sW10.cadastrar_peca 100 "verde" 15).2.2.1 = true →
      (∃ novo : Caixa, ((sW10.cadastrar_peca 100 "verde" 15).1).caixas =
          sW10.caixas ++ [novo] ∧
          novo.pecas = [(sW10.cadastrar_peca 100 "verde" 15).2.1.id]) ∨
      (∃ (pre : List Caixa) (b b' : Caixa) (post : List Caixa),
          sW10.caixas = pre ++ b :: post ∧
          ((sW10.cadastrar_peca 100 "verde" 15).1).caixas = pre ++ b' :: post ∧
          b'.uid = b.uid ∧ b'.numero = b.numero ∧
          b'.pecas = b.pecas ++ [(sW10.cadastrar_peca 100 "verde" 15).2.1.id]))) :=
  ⟨⟨by decide, by decide, by decide, by decide⟩,
    claim_C10 sW10 100 "verde" 15 (by decide) (by decide) (by decide) (by decide)⟩

/-- C7 (code behavior at the failing input): with the header
`Peso,Cor,Comprimento` — which matches the three required field names up to
letter case — the importer does *not* fail fast (the subset check lowercases
and strips the fieldnames), but the well-formed data row `100,azul,15` is
*not* processed as it would be under the canonical lowercase header: the row
lookup `linha['peso']` uses the exact lowercase key against the original
fieldnames, raises `KeyError`, and the batch ends with zero processed rows
and one per-row missing-column error, where the claim requires
`totalProcessed = 1`, one approval and no errors (the second conjunct shows
the canonical-header behavior the claim expects). -/
theorem claim_C7_code_behavior :
    (SistemaProducao.empty.processar_lote_csv
        (some ⟨["Peso", "Cor", "Comprimento"], [["100", "azul", "15"]]⟩)) =
      (SistemaProducao.empty, 0, 0, 0, ["Linha 2: Coluna ausente - peso"]) ∧
    (SistemaProducao.empty.processar_lote_csv
        (some ⟨["peso", "cor", "comprimento"], [["100", "azul", "15"]]⟩)).2 =
      (1, 1, 0, []) := by
  constructor
  · decide
  · decide

/-- C8: in the batch row loop, a data row whose weight value is present but
fails numeric parsing — or whose weight parses and whose length fails —
contributes exactly one error message, prefixed with its row tag
`Linha <n>:`, and leaves the ledger, the processed total and the tallies
untouched; the loop then simply continues with the remaining rows, the next
row being processed as line `n + 1` (the loop starts at line 2, so the k-th
data row is tagged k+2); and a row that reaches registration increments the
processed total by exactly one, regardless of the verdict, adding no
error. -/
theorem claim_C8 :
    (∀ (fn : List String) (acc : LoteAcc) (n : Nat) (row : List String) (v : String),
      dictGet fn row "peso" = some (some v) → parseFloat (strTrim v) = none →
      processarLinha fn acc n row =
        { acc with erros := acc.erros ++ [msgDadosInvalidos n (strTrim v)] } ∧
      ∃ resto : String,
        msgDadosInvalidos n (strTrim v) = ("Linha " ++ toString n ++ ":") ++ resto) ∧
    (∀ (fn : List String) (acc : LoteAcc) (n : Nat) (row : List String)
        (vp vc vl : String) (q : ℚ),
      dictGet fn row "peso" = some (some vp) → parseFloat (strTrim vp) = some q →
      dictGet fn row "cor" = some (some vc) →
      dictGet fn row "comprimento" = some (some vl) →
      parseFloat (strTrim vl) = none →
      processarLinha fn acc n row =
        { acc with erros := acc.erros ++ [msgDadosInvalidos n (strTrim vl)] } ∧
      ∃ resto : String,
        msgDadosInvalidos n (strTrim vl) = ("Linha " ++ toString n ++ ":") ++ resto) ∧
    (∀ (fn : List String) (acc : LoteAcc) (n : Nat) (row : List String)
        (rest : List (List String)),
      processarLinhas fn acc n (row :: rest) =
        processarLinhas fn (processarLinha fn acc n row) (n + 1) rest) ∧
    (∀ (fn : List String) (acc : LoteAcc) (n : Nat) (row : List String)
        (vp vc vl : String) (qp ql : ℚ),
      dictGet fn row "peso" = some (some vp) → parseFloat (strTrim vp) = some qp →
      dictGet fn row "cor" = some (some vc) →
      dictGet fn row "comprimento" = some (some vl) → parseFloat (strTrim vl) = some ql →
      (processarLinha fn acc n row).total = acc.total + 1 ∧
      (processarLinha fn acc n row).erros = acc.erros ∧
      (processarLinha fn acc n row).sistema =
        (acc.sistema.cadastrar_peca qp (strTrim vc) ql).1) := by
  refine ⟨?_, ?_, ?_, ?_⟩
  · intro fn acc n row v h1 h2
    constructor
    · unfold processarLinha
      rw [h1]
      dsimp only
      rw [h2]
    · exact ⟨" Dados inválidos - could not convert string to float: " ++ strTrim v, by
        unfold msgDadosInvalidos
        simp only [String.append_assoc]
        congr 1⟩
  · intro fn acc n row vp vc vl q h1 h2 h3 h4 h5
    constructor
    · unfold processarLinha
      rw [h1]
      dsimp only
      rw [h2]
      dsimp only
      rw [h3]
      dsimp only
      rw [h4]
      dsimp only
      rw [h5]
    · exact ⟨" Dados inválidos - could not convert string to float: " ++ strTrim vl, by
        unfold msgDadosInvalidos
        simp only [String.append_assoc]
        congr 1⟩
  · intro fn acc n row rest
    rfl
  · intro fn acc n row vp vc vl qp ql h1 h2 h3 h4 h5
    unfold processarLinha
    rw [h1]
    dsimp only
    rw [h2]
    dsimp only
    rw [h3]
    dsimp only
    rw [h4]
    dsimp only
    rw [h5]
    dsimp only
    exact ⟨rfl, rfl, rfl⟩

/-- Concrete instantiation of `claim_C8`: the row `abc,azul,15` at line 2 of
a canonical-header batch yields exactly the one tagged malformed-value error
and registers nothing. -/
theorem claim_C8_witness :
    (dictGet ["peso", "cor", "comprimento"] ["abc", "azul", "15"] "peso" =
        some (some "abc") ∧
     parseFloat (strTrim "abc") = none) ∧
    (processarLinha ["peso", "cor", "comprimento"] ⟨SistemaProducao.empty, 0, 0, 0, []⟩ 2
        ["abc", "azul", "15"] =
      { (⟨SistemaProducao.empty, 0, 0, 0, []⟩ : LoteAcc) with
        erros := ([] : List String) ++ [msgDadosInvalidos 2 (strTrim "abc")] } ∧
     ∃ resto : String,
       msgDadosInvalidos 2 (strTrim "abc") = ("Linha " ++ toString 2 ++ ":") ++ resto) :=
  ⟨⟨by decide, by decide⟩,
    claim_C8.1 ["peso", "cor", "comprimento"] ⟨SistemaProducao.empty, 0, 0, 0, []⟩ 2
      ["abc", "azul", "15"] "abc" (by decide) (by decide)⟩
